import Mathlib

/-!
Verification development for the BetSpecs trust-layer engine.

Shallow embedding of `src/trust_layer/validator.py` and `src/schemas/odds.py`.
Python `Decimal` and `float` values are modelled as rationals (`ℚ`); exact
decimal arithmetic on the values these claims use coincides with rational
arithmetic.  `datetime` timestamps are omitted from the embedded records: no
claim below depends on them, and they are the only non-deterministic field.
Python string `lower()` / `strip()` are modelled for the ASCII strings the
repository manipulates; substring containment (`in`) is contiguous-sublist
containment.  The mutable validator object is embedded by explicit state
passing: each method takes the validator state and returns its result paired
with the updated state.
-/

set_option linter.unusedVariables false

namespace BetSpecs

/-- `VerificationStatus` from validator.py (the string payloads of the Python
enum are irrelevant to the claims; the constructors carry the identity). -/
inductive VerificationStatus where
  | VERIFIED
  | FAILED
  | PARTIAL
  | SKIPPED
  deriving DecidableEq, Repr

/-- `VerificationResult` dataclass (timestamp omitted, see module comment). -/
structure VerificationResult where
  status : VerificationStatus
  claim : String
  source_value : Option String
  ai_value : Option String
  discrepancy : Option String
  deriving DecidableEq, Repr

/-- `AIPrediction` dataclass (`generated_at` omitted, see module comment). -/
structure AIPrediction where
  event_id : String
  prediction_type : String
  predicted_value : String
  confidence : ℚ
  reasoning : String
  deriving DecidableEq, Repr

/-- The mutable state of a `TrustLayerValidator` instance: the configured
tolerance and the audit log `verification_log`. -/
structure TrustLayerValidator where
  tolerance : ℚ
  verification_log : List VerificationResult
  deriving DecidableEq, Repr

/-- A fresh validator as built by `TrustLayerValidator.__init__`. -/
def TrustLayerValidator.init (tolerance : ℚ) : TrustLayerValidator :=
  { tolerance := tolerance, verification_log := [] }

/-- Python whitespace as stripped by `str.strip()` (ASCII fragment). -/
def pyIsSpace (c : Char) : Bool :=
  c = ' ' || c = '\t' || c = '\n' || c = '\r' || c = '\x0b' || c = '\x0c'

/-- `str.lower()` on the ASCII strings the repository uses. -/
def pyLower (s : List Char) : List Char :=
  s.map Char.toLower

/-- `str.strip()`: drop leading and trailing whitespace. -/
def pyStrip (s : List Char) : List Char :=
  ((s.dropWhile pyIsSpace).reverse.dropWhile pyIsSpace).reverse

/-- `name.lower().strip()` as used by `verify_team_name`. -/
def pyNormalize (s : String) : List Char :=
  pyStrip (pyLower s.data)

/-- `TrustLayerValidator.verify_odds_claim` (validator.py lines 70-109):
compares `|claimed - source|` against the instance tolerance, builds the
result, appends it to `verification_log`, returns it. -/
def verify_odds_claim (v : TrustLayerValidator) (claimed_odds source_odds : ℚ)
    (selection : String) : VerificationResult × TrustLayerValidator :=
  let diff := |claimed_odds - source_odds|
  let result : VerificationResult :=
    if diff ≤ v.tolerance then
      { status := .VERIFIED
        claim := "Odds for " ++ selection
        source_value := some (toString source_odds)
        ai_value := some (toString claimed_odds)
        discrepancy := none }
    else
      { status := .FAILED
        claim := "Odds for " ++ selection
        source_value := some (toString source_odds)
        ai_value := some (toString claimed_odds)
        discrepancy := some ("Difference of " ++ toString diff ++
          " exceeds tolerance " ++ toString v.tolerance) }
  (result, { v with verification_log := v.verification_log ++ [result] })

/-- `TrustLayerValidator.verify_team_name` (validator.py lines 111-145):
normalize both names, then exact equality → VERIFIED, substring containment
in either direction → PARTIAL, otherwise FAILED. -/
def verify_team_name (v : TrustLayerValidator) (claimed_team source_team : String) :
    VerificationResult × TrustLayerValidator :=
  let claimed_normalized := pyNormalize claimed_team
  let source_normalized := pyNormalize source_team
  let sd : VerificationStatus × Option String :=
    if claimed_normalized = source_normalized then
      (.VERIFIED, none)
    else if claimed_normalized <:+: source_normalized ∨
        source_normalized <:+: claimed_normalized then
      (.PARTIAL, some "Partial match - may be abbreviation")
    else
      (.FAILED, some "Team name mismatch")
  let result : VerificationResult :=
    { status := sd.1
      claim := "Team name"
      source_value := some source_team
      ai_value := some claimed_team
      discrepancy := sd.2 }
  (result, { v with verification_log := v.verification_log ++ [result] })

/-- `TrustLayerValidator.verify_prediction` (validator.py lines 147-180):
runs the team-name check (which logs its own result), then appends a FAILED
confidence result to the returned list — but not to the log — when the
confidence lies outside [0, 1]; `source_odds` is accepted but never used. -/
def verify_prediction (v : TrustLayerValidator) (prediction : AIPrediction)
    (source_odds : ℚ) (source_team : String) :
    (Bool × List VerificationResult) × TrustLayerValidator :=
  let tr := verify_team_name v prediction.predicted_value source_team
  let results : List VerificationResult :=
    if prediction.confidence > 1 ∨ prediction.confidence < 0 then
      [tr.1,
       { status := .FAILED
         claim := "Confidence score"
         source_value := some "0.0-1.0"
         ai_value := some (toString prediction.confidence)
         discrepancy := some "Confidence out of valid range" }]
    else
      [tr.1]
  let all_passed := results.all (fun r => r.status = VerificationStatus.VERIFIED)
  ((all_passed, results), tr.2)

/-- The dictionary returned by `get_verification_summary`. -/
structure VerificationSummary where
  total_checks : Nat
  verified : Nat
  failed : Nat
  pass_rate : ℚ
  deriving DecidableEq, Repr

/-- `TrustLayerValidator.get_verification_summary` (validator.py lines
182-193): counts of log entries by status, plus the pass rate. -/
def get_verification_summary (v : TrustLayerValidator) : VerificationSummary :=
  let total := v.verification_log.length
  let verified :=
    (v.verification_log.filter (fun r => r.status = VerificationStatus.VERIFIED)).length
  let failed :=
    (v.verification_log.filter (fun r => r.status = VerificationStatus.FAILED)).length
  { total_checks := total
    verified := verified
    failed := failed
    pass_rate := if total > 0 then (verified : ℚ) / (total : ℚ) else 0 }

/-- One public operation on a validator instance, for reasoning about
operation sequences. -/
inductive ValidatorOp where
  | oddsCheck (claimed source : ℚ) (selection : String)
  | teamCheck (claimed source : String)
  | predict (p : AIPrediction) (source_odds : ℚ) (source_team : String)
  deriving Repr

/-- Run one operation: the list of `VerificationResult`s it returns to the
caller, paired with the validator state after the call. -/
def runOp (v : TrustLayerValidator) : ValidatorOp → List VerificationResult × TrustLayerValidator
  | .oddsCheck c s sel =>
      let r := verify_odds_claim v c s sel
      ([r.1], r.2)
  | .teamCheck c s =>
      let r := verify_team_name v c s
      ([r.1], r.2)
  | .predict p so st =>
      let r := verify_prediction v p so st
      (r.1.2, r.2)

/-- Run a sequence of operations from a given state. -/
def runOps (v : TrustLayerValidator) : List ValidatorOp → TrustLayerValidator
  | [] => v
  | op :: ops => runOps (runOp v op).2 ops

/-- `OddsFormat` enum from odds.py. -/
inductive OddsFormat where
  | AMERICAN
  | DECIMAL
  | FRACTIONAL
  deriving DecidableEq, Repr

/-- `OddsLine.validate_odds` (odds.py lines 37-47): raising `ValueError` is
modelled as `Except.error` carrying the message. -/
def validate_odds (v : ℚ) : Except String ℚ :=
  if v < -10000 ∨ v > 10000 then
    Except.error ("Odds out of range: " ++ toString v)
  else if (-100 < v ∧ v < 100) ∧ v ≠ 0 then
    Except.error ("Invalid American odds: " ++ toString v)
  else
    Except.ok v

/-- `OddsLine.calculate_implied_probability` (odds.py lines 49-58).  A zero
divisor, which Python `Decimal` arithmetic would raise on, is modelled as
`none`; Lean's total `/` never sees a zero denominator in the `some` cases. -/
def calculate_implied_probability (odds_format : OddsFormat) (odds : ℚ) : Option ℚ :=
  match odds_format with
  | .AMERICAN =>
      if odds > 0 then
        if odds + 100 = 0 then none else some (100 / (odds + 100))
      else
        if |odds| + 100 = 0 then none else some (|odds| / (|odds| + 100))
  | .DECIMAL =>
      if odds = 0 then none else some (1 / odds)
  | .FRACTIONAL => some 0

/-- A validator with the default tolerance `Decimal("0.01")`. -/
def defaultValidator : TrustLayerValidator :=
  TrustLayerValidator.init (mkRat 1 100)

/-- The spec's end-to-end Chiefs scenario prediction: team "Chiefs",
confidence 0.92 (the claimed odds +3.5 have no field to live in:
`AIPrediction` carries no numeric odds claim). -/
def chiefsPrediction : AIPrediction :=
  { event_id := "nfl_kc"
    prediction_type := "moneyline"
    predicted_value := "Chiefs"
    confidence := mkRat 92 100
    reasoning := "strong offense" }

/-- A prediction with out-of-range confidence 1.5, as in the repository's
`test_invalid_confidence_rejected`. -/
def overconfidentPrediction : AIPrediction :=
  { event_id := "game_123"
    prediction_type := "moneyline"
    predicted_value := "Lakers"
    confidence := mkRat 3 2
    reasoning := "Sure thing!" }

/-- A prediction sitting exactly at the upper confidence boundary 1.0. -/
def boundaryPrediction : AIPrediction :=
  { event_id := "game_124"
    prediction_type := "moneyline"
    predicted_value := "Lakers"
    confidence := 1
    reasoning := "very sure" }

/-- A prediction with confidence 2, strictly above the valid range. -/
def wildPrediction : AIPrediction :=
  { event_id := "game_125"
    prediction_type := "moneyline"
    predicted_value := "Lakers"
    confidence := 2
    reasoning := "beyond sure" }

/-- The `all`-VERIFIED boolean over a result list is true exactly when every
element's status is VERIFIED. -/
theorem all_verified_iff (l : List VerificationResult) :
    (l.all (fun r => r.status = VerificationStatus.VERIFIED)) = true ↔
      ∀ r ∈ l, r.status = VerificationStatus.VERIFIED := by
  simp [List.all_eq_true]

/-- Every public operation appends exactly one entry to the audit log
(`verify_prediction` logs only the team-name result). -/
theorem runOp_log_length (v : TrustLayerValidator) (op : ValidatorOp) :
    ((runOp v op).2).verification_log.length = v.verification_log.length + 1 := by
  cases op with
  | oddsCheck c s sel => simp [runOp, verify_odds_claim]
  | teamCheck c s => simp [runOp, verify_team_name]
  | predict p so st => simp [runOp, verify_prediction, verify_team_name]

/-- After a sequence of operations the log has grown by exactly the number of
operations. -/
theorem runOps_log_length (ops : List ValidatorOp) :
    ∀ v : TrustLayerValidator,
      (runOps v ops).verification_log.length = v.verification_log.length + ops.length := by
  induction ops with
  | nil => intro v; simp [runOps]
  | cons op ops ih =>
      intro v
      simp only [runOps, List.length_cons]
      rw [ih, runOp_log_length]
      omega

/-- The VERIFIED and FAILED entries of a log are disjoint, so their counts sum
to at most the log length. -/
theorem filter_verified_failed_length_le (l : List VerificationResult) :
    (l.filter (fun r => r.status = VerificationStatus.VERIFIED)).length +
      (l.filter (fun r => r.status = VerificationStatus.FAILED)).length ≤ l.length := by
  induction l with
  | nil => simp
  | cons a l ih =>
      cases ha : a.status <;> simp [List.filter_cons, ha] <;> omega

/-- Lowercasing fixes every whitespace character. -/
theorem pyIsSpace_toLower {c : Char} (h : pyIsSpace c = true) : Char.toLower c = c := by
  simp only [pyIsSpace, Bool.or_eq_true, decide_eq_true_eq] at h
  rcases h with ((((h | h) | h) | h) | h) | h <;> subst h <;> decide

/-- A string of whitespace characters (in particular the empty string)
normalizes to the empty character list. -/
theorem pyNormalize_whitespace {s : String} (h : ∀ c ∈ s.data, pyIsSpace c = true) :
    pyNormalize s = [] := by
  have h2 : ∀ c ∈ pyLower s.data, pyIsSpace c = true := by
    intro c hc
    rcases List.mem_map.mp hc with ⟨a, ha, rfl⟩
    rw [pyIsSpace_toLower (h a ha)]
    exact h a ha
  unfold pyNormalize pyStrip
  rw [List.dropWhile_eq_nil_iff.mpr h2]
  simp

/-- Definitional shape of the result returned by `verify_odds_claim`. -/
theorem verify_odds_claim_result (v : TrustLayerValidator) (c s : ℚ) (sel : String) :
    (verify_odds_claim v c s sel).1 =
      if |c - s| ≤ v.tolerance then
        { status := .VERIFIED, claim := "Odds for " ++ sel,
          source_value := some (toString s), ai_value := some (toString c),
          discrepancy := none }
      else
        { status := .FAILED, claim := "Odds for " ++ sel,
          source_value := some (toString s), ai_value := some (toString c),
          discrepancy := some ("Difference of " ++ toString |c - s| ++
            " exceeds tolerance " ++ toString v.tolerance) } := rfl

/-- Shape of the result returned by `verify_team_name`, with the pipeline's
branching lifted to the top. -/
theorem verify_team_name_result (v : TrustLayerValidator) (claimed source : String) :
    (verify_team_name v claimed source).1 =
      if pyNormalize claimed = pyNormalize source then
        { status := .VERIFIED, claim := "Team name", source_value := some source,
          ai_value := some claimed, discrepancy := none }
      else if pyNormalize claimed <:+: pyNormalize source ∨
          pyNormalize source <:+: pyNormalize claimed then
        { status := .PARTIAL, claim := "Team name", source_value := some source,
          ai_value := some claimed,
          discrepancy := some "Partial match - may be abbreviation" }
      else
        { status := .FAILED, claim := "Team name", source_value := some source,
          ai_value := some claimed, discrepancy := some "Team name mismatch" } := by
  unfold verify_team_name
  by_cases h1 : pyNormalize claimed = pyNormalize source
  · simp [h1]
  · by_cases h2 : pyNormalize claimed <:+: pyNormalize source ∨
        pyNormalize source <:+: pyNormalize claimed <;> simp [h1, h2]

/-- The result list returned by `verify_prediction`: the team result, plus a
FAILED confidence result exactly when the confidence is out of range. -/
theorem verify_prediction_results (v : TrustLayerValidator) (p : AIPrediction)
    (so : ℚ) (st : String) :
    (verify_prediction v p so st).1.2 =
      if p.confidence > 1 ∨ p.confidence < 0 then
        [(verify_team_name v p.predicted_value st).1,
         { status := .FAILED, claim := "Confidence score", source_value := some "0.0-1.0",
           ai_value := some (toString p.confidence),
           discrepancy := some "Confidence out of valid range" }]
      else
        [(verify_team_name v p.predicted_value st).1] := rfl

/-- `all_passed` is literally the `all`-VERIFIED fold of the returned list. -/
theorem verify_prediction_passed (v : TrustLayerValidator) (p : AIPrediction)
    (so : ℚ) (st : String) :
    (verify_prediction v p so st).1.1 =
      ((verify_prediction v p so st).1.2).all
        (fun r => r.status = VerificationStatus.VERIFIED) := rfl

/-- `verify_prediction` mutates the log only through the team-name check. -/
theorem verify_prediction_state (v : TrustLayerValidator) (p : AIPrediction)
    (so : ℚ) (st : String) :
    (verify_prediction v p so st).2 = (verify_team_name v p.predicted_value st).2 := rfl

/-- C1: contrary to the claim, `verify_prediction` performs no odds check at
all: its output is insensitive to the supplied `source_odds`, and at the
spec's Chiefs scenario (team "Chiefs", confidence 0.92, source odds -2.5) it
returns only the PARTIAL team-name result — the verdict is false, but through
the team check, with no odds sub-result present. -/
theorem C1_no_odds_check_performed :
    (∀ (v : TrustLayerValidator) (p : AIPrediction) (so so' : ℚ) (st : String),
      verify_prediction v p so st = verify_prediction v p so' st) ∧
    (verify_prediction defaultValidator chiefsPrediction (mkRat (-5) 2)
        "Kansas City Chiefs").1 =
      (false,
       [{ status := .PARTIAL, claim := "Team name",
          source_value := some "Kansas City Chiefs", ai_value := some "Chiefs",
          discrepancy := some "Partial match - may be abbreviation" }]) :=
  ⟨fun _ _ _ _ _ => rfl, by decide⟩

/-- C2: in the repository's own invalid-confidence scenario (confidence 1.5),
`verify_prediction` returns a "Confidence score" FAILED result to the caller
that is absent from `verification_log`: the audit-ledger invariant is
violated. -/
theorem C2_returned_result_missing_from_log :
    (verify_prediction defaultValidator overconfidentPrediction (-110)
        "Lakers").1.2 =
      [{ status := .VERIFIED, claim := "Team name", source_value := some "Lakers",
         ai_value := some "Lakers", discrepancy := none },
       { status := .FAILED, claim := "Confidence score", source_value := some "0.0-1.0",
         ai_value := some (toString (mkRat 3 2)),
         discrepancy := some "Confidence out of valid range" }] ∧
    ((verify_prediction defaultValidator overconfidentPrediction (-110)
        "Lakers").2).verification_log =
      [{ status := .VERIFIED, claim := "Team name", source_value := some "Lakers",
         ai_value := some "Lakers", discrepancy := none }] := by
  decide

/-- C3 counterexample: there is no alias table — "Dubs" against
"Golden State Warriors" yields a FAILED mismatch, not a VERIFIED
alias-lookup result. -/
theorem C3_counterexample :
    (verify_team_name defaultValidator "Dubs" "Golden State Warriors").1 =
      { status := .FAILED, claim := "Team name",
        source_value := some "Golden State Warriors", ai_value := some "Dubs",
        discrepancy := some "Team name mismatch" } ∧
    ((verify_team_name defaultValidator "Dubs" "Golden State Warriors").1.status =
        VerificationStatus.VERIFIED) = False :=
  ⟨by decide, eq_false (by decide)⟩

/-- C3 (amended): team-name resolution has no alias stage — a VERIFIED result
arises exactly from equality of the normalized names, so an alias sharing no
substring with the canonical name ("Dubs") fails outright. -/
theorem C3_verified_only_by_exact_match (v : TrustLayerValidator)
    (claimed source : String) :
    (verify_team_name v claimed source).1.status = VerificationStatus.VERIFIED ↔
      pyNormalize claimed = pyNormalize source := by
  rw [verify_team_name_result]
  by_cases h1 : pyNormalize claimed = pyNormalize source
  · simp [h1]
  · by_cases h2 : pyNormalize claimed <:+: pyNormalize source ∨
        pyNormalize source <:+: pyNormalize claimed <;> simp [h1, h2]

/-- C4 counterexample: at the boundary confidence 1.0 the orchestrator
produces no confidence `VerificationResult` at all — the returned sequence
holds only the team-name result, so no VERIFIED confidence result exists. -/
theorem C4_counterexample :
    (verify_prediction defaultValidator boundaryPrediction (-110) "Lakers").1.2 =
      [{ status := .VERIFIED, claim := "Team name", source_value := some "Lakers",
         ai_value := some "Lakers", discrepancy := none }] := by
  decide

/-- C4 (amended): the confidence check accepts exactly the closed interval
[0, 1], but an accepted confidence produces no result record: the check is
silent inside the range, and out of range it appends exactly one FAILED
confidence result, with no tolerance applied. -/
theorem C4_confidence_check (v : TrustLayerValidator) (p : AIPrediction)
    (so : ℚ) (st : String) :
    (0 ≤ p.confidence ∧ p.confidence ≤ 1 →
      (verify_prediction v p so st).1.2 =
        [(verify_team_name v p.predicted_value st).1]) ∧
    (1 < p.confidence ∨ p.confidence < 0 →
      (verify_prediction v p so st).1.2 =
        [(verify_team_name v p.predicted_value st).1,
         { status := .FAILED, claim := "Confidence score",
           source_value := some "0.0-1.0",
           ai_value := some (toString p.confidence),
           discrepancy := some "Confidence out of valid range" }]) := by
  rw [verify_prediction_results]
  constructor
  · rintro ⟨h0, h1⟩
    rw [if_neg]
    rintro (h | h)
    · exact absurd h (not_lt.mpr h1)
    · exact absurd h (not_lt.mpr h0)
  · intro h
    rw [if_pos h]

/-- Witness for C4: confidence 1.0 yields only the team result; confidence 2
appends the FAILED confidence result. -/
theorem C4_confidence_check_witness :
    (verify_prediction defaultValidator boundaryPrediction (-110) "Lakers").1.2 =
      [(verify_team_name defaultValidator "Lakers" "Lakers").1] ∧
    (verify_prediction defaultValidator wildPrediction (-110) "Lakers").1.2 =
      [(verify_team_name defaultValidator "Lakers" "Lakers").1,
       { status := .FAILED, claim := "Confidence score",
         source_value := some "0.0-1.0",
         ai_value := some (toString wildPrediction.confidence),
         discrepancy := some "Confidence out of valid range" }] :=
  ⟨(C4_confidence_check defaultValidator boundaryPrediction (-110) "Lakers").1
      (by constructor <;> norm_num [boundaryPrediction]),
   (C4_confidence_check defaultValidator wildPrediction (-110) "Lakers").2
      (Or.inl (by norm_num [wildPrediction]))⟩

/-- C5 counterexample: after one check call that logs a PARTIAL result the
summary reports one total check but its only per-status counters, verified
and failed, are both zero — they do not partition the total, and the summary
carries no partial or stale counter at all. -/
theorem C5_counterexample :
    (get_verification_summary (runOps defaultValidator
        [ValidatorOp.teamCheck "Lakers" "Los Angeles Lakers"])).total_checks = 1 ∧
    (get_verification_summary (runOps defaultValidator
        [ValidatorOp.teamCheck "Lakers" "Los Angeles Lakers"])).verified = 0 ∧
    (get_verification_summary (runOps defaultValidator
        [ValidatorOp.teamCheck "Lakers" "Los Angeles Lakers"])).failed = 0 := by
  decide

/-- C5 (amended): after exactly N operations the summary's `total_checks` is
N, and the per-status counters it actually has — verified and failed — sum to
at most N (PARTIAL log entries are counted by neither). -/
theorem C5_summary_counts (t : ℚ) (ops : List ValidatorOp) :
    (get_verification_summary (runOps (TrustLayerValidator.init t) ops)).total_checks =
      ops.length ∧
    (get_verification_summary (runOps (TrustLayerValidator.init t) ops)).verified +
      (get_verification_summary (runOps (TrustLayerValidator.init t) ops)).failed ≤
      ops.length := by
  have hlen : (runOps (TrustLayerValidator.init t) ops).verification_log.length =
      ops.length := by
    rw [runOps_log_length]
    simp [TrustLayerValidator.init]
  exact ⟨hlen, le_of_le_of_eq (filter_verified_failed_length_le _) hlen⟩

/-- C6: the odds comparison is VERIFIED exactly when the absolute difference
is within the tolerance (boundary included); beyond it the result is FAILED
with a discrepancy naming the difference and the tolerance. -/
theorem C6_odds_verified_iff_within_tolerance (v : TrustLayerValidator)
    (claimed source : ℚ) (sel : String) :
    ((verify_odds_claim v claimed source sel).1.status = VerificationStatus.VERIFIED ↔
      |claimed - source| ≤ v.tolerance) ∧
    (v.tolerance < |claimed - source| →
      (verify_odds_claim v claimed source sel).1.status = VerificationStatus.FAILED ∧
      (verify_odds_claim v claimed source sel).1.discrepancy =
        some ("Difference of " ++ toString |claimed - source| ++
          " exceeds tolerance " ++ toString v.tolerance)) := by
  rw [verify_odds_claim_result]
  by_cases h : |claimed - source| ≤ v.tolerance
  · rw [if_pos h]
    exact ⟨by simp [h], fun h' => absurd h (not_le.mpr h')⟩
  · rw [if_neg h]
    exact ⟨by simp [h], fun _ => ⟨rfl, rfl⟩⟩

/-- Witness for C6: the default 0.01 tolerance rejects a 6-unit difference
(+3.5 claimed against -2.5 source). -/
theorem C6_odds_verified_iff_within_tolerance_witness :
    (verify_odds_claim defaultValidator (mkRat 7 2) (mkRat (-5) 2)
        "Chiefs").1.status = VerificationStatus.FAILED ∧
    (verify_odds_claim defaultValidator (mkRat 7 2) (mkRat (-5) 2)
        "Chiefs").1.discrepancy =
      some ("Difference of " ++ toString |mkRat 7 2 - mkRat (-5) 2| ++
        " exceeds tolerance " ++ toString defaultValidator.tolerance) :=
  (C6_odds_verified_iff_within_tolerance defaultValidator (mkRat 7 2)
      (mkRat (-5) 2) "Chiefs").2
    (by norm_num [defaultValidator, TrustLayerValidator.init, Rat.mkRat_eq_div])

/-- C7 counterexample: the mismatch discrepancy produced by the code is
capitalized "Team name mismatch", not the claim's "team name mismatch". -/
theorem C7_counterexample :
    (verify_team_name defaultValidator "Boston Celtics"
        "Los Angeles Lakers").1.status = VerificationStatus.FAILED ∧
    (verify_team_name defaultValidator "Boston Celtics"
        "Los Angeles Lakers").1.discrepancy = some "Team name mismatch" ∧
    ((verify_team_name defaultValidator "Boston Celtics"
        "Los Angeles Lakers").1.discrepancy = some "team name mismatch") = False :=
  ⟨by decide, by decide, eq_false (by decide)⟩

/-- C7 (amended): team-name resolution classifies in pipeline order with the
first match winning — normalized equality gives VERIFIED, else substring
containment either way gives PARTIAL, else FAILED with discrepancy
"Team name mismatch" (capitalized, unlike the claim's quoted string). -/
theorem C7_pipeline_order (v : TrustLayerValidator) (claimed source : String) :
    (pyNormalize claimed = pyNormalize source →
      (verify_team_name v claimed source).1.status = VerificationStatus.VERIFIED) ∧
    (pyNormalize claimed ≠ pyNormalize source →
      (pyNormalize claimed <:+: pyNormalize source ∨
        pyNormalize source <:+: pyNormalize claimed) →
      (verify_team_name v claimed source).1.status = VerificationStatus.PARTIAL) ∧
    (pyNormalize claimed ≠ pyNormalize source →
      ¬(pyNormalize claimed <:+: pyNormalize source ∨
        pyNormalize source <:+: pyNormalize claimed) →
      (verify_team_name v claimed source).1.status = VerificationStatus.FAILED ∧
      (verify_team_name v claimed source).1.discrepancy =
        some "Team name mismatch") := by
  rw [verify_team_name_result]
  refine ⟨fun h1 => ?_, fun h1 h2 => ?_, fun h1 h2 => ?_⟩
  · rw [if_pos h1]
  · rw [if_neg h1, if_pos h2]
  · rw [if_neg h1, if_neg h2]
    exact ⟨rfl, rfl⟩

/-- Witness for C7: "Lakers" against "Los Angeles Lakers" is PARTIAL, and
"Boston Celtics" against "Los Angeles Lakers" is FAILED. -/
theorem C7_pipeline_order_witness :
    (verify_team_name defaultValidator "Lakers"
        "Los Angeles Lakers").1.status = VerificationStatus.PARTIAL ∧
    (verify_team_name defaultValidator "Boston Celtics"
        "Los Angeles Lakers").1.status = VerificationStatus.FAILED :=
  ⟨(C7_pipeline_order defaultValidator "Lakers" "Los Angeles Lakers").2.1
      (by decide) (by decide),
   ((C7_pipeline_order defaultValidator "Boston Celtics" "Los Angeles Lakers").2.2
      (by decide) (by decide)).1⟩

/-- C8: `verify_prediction`'s boolean verdict is true exactly when every
returned result is VERIFIED; in particular a PARTIAL result forces a false
verdict. -/
theorem C8_all_passed_iff (v : TrustLayerValidator) (p : AIPrediction)
    (so : ℚ) (st : String) :
    ((verify_prediction v p so st).1.1 = true ↔
      ∀ r ∈ (verify_prediction v p so st).1.2,
        r.status = VerificationStatus.VERIFIED) ∧
    ((∃ r ∈ (verify_prediction v p so st).1.2,
        r.status = VerificationStatus.PARTIAL) →
      (verify_prediction v p so st).1.1 = false) := by
  constructor
  · rw [verify_prediction_passed]
    exact all_verified_iff _
  · rintro ⟨r, hr, hpart⟩
    rw [verify_prediction_passed]
    cases hall : ((verify_prediction v p so st).1.2).all
        (fun r => r.status = VerificationStatus.VERIFIED) with
    | false => rfl
    | true =>
        have hv := (all_verified_iff _).mp hall r hr
        rw [hpart] at hv
        exact absurd hv (by decide)

/-- Witness for C8: the Chiefs scenario's PARTIAL team result forces a false
verdict. -/
theorem C8_all_passed_iff_witness :
    (verify_prediction defaultValidator chiefsPrediction (mkRat (-5) 2)
        "Kansas City Chiefs").1.1 = false :=
  (C8_all_passed_iff defaultValidator chiefsPrediction (mkRat (-5) 2)
      "Kansas City Chiefs").2 (by decide)

/-- C9: for any odds accepted by the American-odds range validation, the
implied-probability computation never divides by zero (no `none` case) and
matches 100/(odds+100) for positive odds and |odds|/(|odds|+100) for negative
odds. -/
theorem C9_implied_probability_safe (odds : ℚ)
    (h : validate_odds odds = Except.ok odds) :
    (calculate_implied_probability OddsFormat.AMERICAN odds).isSome = true ∧
    (0 < odds →
      calculate_implied_probability OddsFormat.AMERICAN odds =
        some (100 / (odds + 100))) ∧
    (odds < 0 →
      calculate_implied_probability OddsFormat.AMERICAN odds =
        some (|odds| / (|odds| + 100))) := by
  unfold calculate_implied_probability
  by_cases hp : odds > 0
  · have hne : ¬(odds + 100 = 0) := by positivity
    rw [if_pos hp, if_neg hne]
    exact ⟨rfl, fun _ => rfl, fun hn => absurd hp (not_lt.mpr hn.le)⟩
  · have hne : ¬(|odds| + 100 = 0) := by positivity
    rw [if_neg hp, if_neg hne]
    exact ⟨rfl, fun hq => absurd hq hp, fun _ => rfl⟩

/-- Witness for C9 at the book-standard odds -110. -/
theorem C9_implied_probability_safe_witness :
    calculate_implied_probability OddsFormat.AMERICAN (-110) =
      some (|(-110 : ℚ)| / (|(-110 : ℚ)| + 100)) :=
  (C9_implied_probability_safe (-110) (by norm_num [validate_odds])).2.2 (by norm_num)

/-- C10: a claimed team name that is empty or whitespace-only never fails
against a non-empty source: it is PARTIAL when the source has a non-empty
normalized form and VERIFIED when the source also normalizes to nothing. -/
theorem C10_blank_claimed_never_fails (v : TrustLayerValidator)
    (claimed source : String)
    (hc : ∀ c ∈ claimed.data, pyIsSpace c = true) (hs : source ≠ "") :
    (verify_team_name v claimed source).1.status ≠ VerificationStatus.FAILED ∧
    (pyNormalize source = [] →
      (verify_team_name v claimed source).1.status = VerificationStatus.VERIFIED) ∧
    (pyNormalize source ≠ [] →
      (verify_team_name v claimed source).1.status = VerificationStatus.PARTIAL) := by
  have hcn : pyNormalize claimed = [] := pyNormalize_whitespace hc
  rw [verify_team_name_result, hcn]
  by_cases hsn : pyNormalize source = []
  · rw [hsn]
    rw [if_pos rfl]
    exact ⟨fun h => VerificationStatus.noConfusion h, fun _ => rfl, fun h => absurd rfl h⟩
  · rw [if_neg (fun h => hsn h.symm), if_pos (Or.inl List.nil_infix)]
    exact ⟨fun h => VerificationStatus.noConfusion h, fun h => absurd h hsn, fun _ => rfl⟩

/-- Witness for C10: a whitespace-only claimed name against a real team name
is a PARTIAL match. -/
theorem C10_blank_claimed_never_fails_witness :
    (verify_team_name defaultValidator "  "
        "Golden State Warriors").1.status = VerificationStatus.PARTIAL :=
  (C10_blank_claimed_never_fails defaultValidator "  " "Golden State Warriors"
      (by decide) (by decide)).2.2 (by decide)

end BetSpecs
